import Mathlib

/-
Verification of the automatic energy-deficit controller of the
challenge_goodwe_movil repository.

The embedding models the decision logic of
consumption/tasks.py:check_and_control_devices, its helper
control_tuya_device, and consumption/models.py:EnergyManagementConfig.save.
Python floats are modelled as exact rationals, datetimes as natural-number
ticks, and the database as explicit lists of rows.

A fact of the schema drives the deficit branch: ConsumptionAlert.device
(models.py) is a ForeignKey declared without null=True, hence a NOT NULL
column in the schema the bootstrap scripts generate from the models.  The
first statement of the deficit branch is
ConsumptionAlert.objects.create(device=None, ...) (tasks.py), which violates
that constraint and raises; the task-level except handler then returns the
error report.  Nothing was written before the failing insert and the insert
itself commits nothing, so a deficit run mutates no state, creates no alert
and never reaches the transaction.atomic block, the BAIXA control loop, the
MEDIA alert loop or the transport adapter.  The model embeds exactly this
behaviour: the deficit branch yields the error report with the store
unchanged.  The run result additionally carries a ghost log of transport
calls made, so that statements about the transport never being invoked can
be expressed.
-/

namespace GoodWe

/-- DevicePriority text choices from devices/models.py. -/
inductive DevicePriority where
| alta
| media
| baixa
deriving DecidableEq

/-- DeviceType text choices from devices/models.py. -/
inductive DeviceType where
| manual
| tuya
| smart
deriving DecidableEq

/-- A row of the Device table (devices/models.py), restricted to the fields
the deficit controller reads or writes. -/
structure Device where
  id : Nat
  name : String
  device_type : DeviceType
  last_consumption : ℚ
  is_active : Bool
  is_controllable : Bool
  priority : DevicePriority
  auto_controlled : Bool
  auto_control_timestamp : Option Nat
deriving DecidableEq

/-- A row of the ConsumptionReading table (consumption/models.py), restricted
to the fields the controller reads. -/
structure ConsumptionReading where
  timestamp : Nat
  production_kwh : ℚ
deriving DecidableEq

/-- A row of the ConsumptionAlert table (consumption/models.py); device is a
non-nullable foreign key (the ForeignKey has no null=True, so the column is
NOT NULL), held by id.  No stored alert row can be system-wide. -/
structure ConsumptionAlert where
  device : Nat
  alert_type : String
  severity : String
  message : String
deriving DecidableEq

/-- A row of the EnergyManagementConfig table (consumption/models.py). -/
structure EnergyManagementConfig where
  id : Nat
  name : String
  deficit_threshold_percentage : ℚ
  auto_control_enabled : Bool
  is_active : Bool
deriving DecidableEq

/-- The data store visible to the controller. -/
structure DB where
  configs : List EnergyManagementConfig
  readings : List ConsumptionReading
  devices : List Device
  alerts : List ConsumptionAlert
deriving DecidableEq

/-- EnergyManagementConfig.get_active_config: first config row with
is_active = true. -/
def EnergyManagementConfig.get_active_config
    (configs : List EnergyManagementConfig) : Option EnergyManagementConfig :=
  configs.find? (fun c => c.is_active)

/-- EnergyManagementConfig.save (models.py): when the record being saved is
active, first deactivate every currently active stored row (the queryset
update), then write the record itself: update the row with the same primary
key if it exists, insert otherwise. -/
def EnergyManagementConfig.save
    (configs : List EnergyManagementConfig) (c : EnergyManagementConfig) :
    List EnergyManagementConfig :=
  let configs1 :=
    if c.is_active then
      configs.map (fun x => if x.is_active then { x with is_active := false } else x)
    else configs
  if configs1.any (fun x => x.id == c.id) then
    configs1.map (fun x => if x.id == c.id then c else x)
  else
    configs1 ++ [c]

/-- ConsumptionReading.objects.order_by desc timestamp, first: a reading with
maximal timestamp (the database order on equal timestamps is unspecified;
the model keeps the earliest-listed one). -/
def latestReading (readings : List ConsumptionReading) : Option ConsumptionReading :=
  readings.foldl
    (fun acc r =>
      match acc with
      | none => some r
      | some b => if r.timestamp > b.timestamp then some r else some b)
    none

/-- control_tuya_device (tasks.py): returns false for a non-Tuya device; for a
Tuya device the simulated control always succeeds.  The turn_on argument only
affects logging in the source.  No completed run of the controller ever
invokes this adapter, because the deficit branch aborts at its first insert;
it is embedded as the transport collaborator the dead loop below that insert
would call. -/
def control_tuya_device (device : Device) (turn_on : Bool) : Bool :=
  if device.device_type ≠ DeviceType.tuya then false else true

/-- Sum of last_consumption over the active devices (the total_consumption
local of check_and_control_devices). -/
def total_consumption (db : DB) : ℚ :=
  ((db.devices.filter (fun d => d.is_active)).map (fun d => d.last_consumption)).sum

/-- The production_percentage computation of check_and_control_devices:
production over consumption as a percentage, defined as 100.0 when there is
no consumption. -/
def production_percentage (total_production total_consumption : ℚ) : ℚ :=
  if total_consumption > 0 then total_production / total_consumption * 100 else 100

/-- Selector for a device_auto_controlled alert referencing device i. -/
def autoAlertFor (i : Nat) (a : ConsumptionAlert) : Bool :=
  a.device == i && a.alert_type == "device_auto_controlled"

/-- Selector for a medium_priority_action_needed alert referencing device i. -/
def mediumActionAlertFor (i : Nat) (a : ConsumptionAlert) : Bool :=
  a.device == i && a.alert_type == "medium_priority_action_needed"

/-- Selector for a deficit_detected alert of any severity on any device. -/
def deficitAlertP (a : ConsumptionAlert) : Bool :=
  a.alert_type == "deficit_detected"

/-- The dictionary returned by check_and_control_devices.  Keys missing from a
given return statement of the source are modelled as none. -/
structure RunReport where
  status : String
  message : String
  production_percentage : Option ℚ
  deficit_threshold : Option ℚ
  is_deficit : Option Bool
  devices_controlled : Nat
  alerts_created : Nat
  timestamp : Option Nat
deriving DecidableEq

/-- Result of one controller invocation: the returned report, the data store
after the run, and the ghost log of transport calls made. -/
structure RunResult where
  report : RunReport
  db : DB
  transport_calls : List (Nat × Bool)
deriving DecidableEq

/-- The skipped-status report of the early returns of
check_and_control_devices. -/
def skippedReport (msg : String) : RunReport :=
  { status := "skipped", message := msg,
    production_percentage := none, deficit_threshold := none,
    is_deficit := none, devices_controlled := 0, alerts_created := 0,
    timestamp := none }

/-- The error report built by the task-level except handler of
check_and_control_devices.  The source interpolates str(e); the text of the
IntegrityError raised by the device=None alert insert is backend-specific
and is modelled by a fixed string, which no theorem inspects. -/
def errorReport : RunReport :=
  { status := "error",
    message := "Error in device control check: IntegrityError",
    production_percentage := none, deficit_threshold := none,
    is_deficit := none, devices_controlled := 0, alerts_created := 0,
    timestamp := none }

/-- check_and_control_devices (tasks.py): the deficit controller.  Skips when
there is no active config, auto-control is disabled, or there is no reading;
otherwise computes the production percentage.  With no deficit it returns
the success report and writes nothing.  With a deficit, the first statement
of the branch is ConsumptionAlert.objects.create with device=None; the
device column is NOT NULL (models.py ForeignKey without null=True), so the
insert raises, the except handler returns the error report, and nothing is
committed: the transaction.atomic block, the BAIXA loop, the MEDIA loop and
the transport call below the insert are unreachable. -/
def check_and_control_devices (db : DB) (now : Nat) : RunResult :=
  match EnergyManagementConfig.get_active_config db.configs with
  | none =>
    { report := skippedReport "Auto control is disabled or no active config found",
      db := db, transport_calls := [] }
  | some config =>
    if !config.auto_control_enabled then
      { report := skippedReport "Auto control is disabled or no active config found",
        db := db, transport_calls := [] }
    else
      match latestReading db.readings with
      | none =>
        { report := skippedReport "No consumption readings found",
          db := db, transport_calls := [] }
      | some latest_reading =>
        let total_production := latest_reading.production_kwh
        let total_consumption := GoodWe.total_consumption db
        let production_percentage :=
          GoodWe.production_percentage total_production total_consumption
        let deficit_threshold := config.deficit_threshold_percentage
        let is_deficit := decide (production_percentage < deficit_threshold)
        if is_deficit then
          { report := errorReport, db := db, transport_calls := [] }
        else
          { report := { status := "success",
                        message := "Device control check completed",
                        production_percentage := some production_percentage,
                        deficit_threshold := some deficit_threshold,
                        is_deficit := some is_deficit,
                        devices_controlled := 0,
                        alerts_created := 0,
                        timestamp := some now },
            db := db, transport_calls := [] }

/-- The configuration of spec scenarios 7 and 8: threshold 100, auto control
enabled, active. -/
def demoConfig : EnergyManagementConfig :=
  { id := 1, name := "Config", deficit_threshold_percentage := 100,
    auto_control_enabled := true, is_active := true }

/-- The controllable BAIXA Tuya device of spec scenarios 7 and 8, consuming
3.0 kWh. -/
def baixaDemoDevice : Device :=
  { id := 1, name := "Tomada", device_type := DeviceType.tuya,
    last_consumption := 3, is_active := true, is_controllable := true,
    priority := DevicePriority.baixa, auto_controlled := false,
    auto_control_timestamp := none }

/-- The MEDIA device of spec scenarios 7 and 8, consuming 2.0 kWh. -/
def mediaDemoDevice : Device :=
  { id := 2, name := "Geladeira", device_type := DeviceType.manual,
    last_consumption := 2, is_active := true, is_controllable := false,
    priority := DevicePriority.media, auto_controlled := false,
    auto_control_timestamp := none }

/-- Spec scenario 7: production 5.0 against total consumption 5.0. -/
def scenario7DB : DB :=
  { configs := [demoConfig],
    readings := [{ timestamp := 1, production_kwh := 5 }],
    devices := [baixaDemoDevice, mediaDemoDevice], alerts := [] }

/-- Spec scenario 8: production 4.0 against the same devices. -/
def scenario8DB : DB :=
  { configs := [demoConfig],
    readings := [{ timestamp := 1, production_kwh := 4 }],
    devices := [baixaDemoDevice, mediaDemoDevice], alerts := [] }

/-- A non-controllable active BAIXA device. -/
def manualBaixaDevice : Device :=
  { id := 3, name := "Aquecedor", device_type := DeviceType.manual,
    last_consumption := 5, is_active := true, is_controllable := false,
    priority := DevicePriority.baixa, auto_controlled := false,
    auto_control_timestamp := none }

/-- A deficit store whose only device is a non-controllable BAIXA device. -/
def scenarioManualDB : DB :=
  { configs := [demoConfig],
    readings := [{ timestamp := 1, production_kwh := 1 }],
    devices := [manualBaixaDevice], alerts := [] }

/-- A controllable BAIXA device that is not a Tuya device, so a transport
call for it would return false. -/
def failBaixaDevice : Device :=
  { id := 1, name := "Ar", device_type := DeviceType.manual,
    last_consumption := 5, is_active := true, is_controllable := true,
    priority := DevicePriority.baixa, auto_controlled := false,
    auto_control_timestamp := none }

/-- A deficit store whose only device is failBaixaDevice. -/
def scenarioFailDB : DB :=
  { configs := [demoConfig],
    readings := [{ timestamp := 1, production_kwh := 1 }],
    devices := [failBaixaDevice], alerts := [] }

theorem countP_key_eq_zero {α β : Type} [DecidableEq β] (f : α → β) (k : β)
    (l : List α) (h : ∀ x ∈ l, f x ≠ k) : l.countP (fun x => f x == k) = 0 :=
  List.countP_eq_zero.mpr (by intro a ha; simpa using h a ha)

theorem countP_key_le_one {α β : Type} [DecidableEq β] (f : α → β) (k : β)
    (l : List α) (hnd : (l.map f).Nodup) :
    l.countP (fun x => f x == k) ≤ 1 := by
  induction l with
  | nil => simp
  | cons x xs ih =>
    rw [List.map_cons, List.nodup_cons] at hnd
    rw [List.countP_cons]
    by_cases hx : f x = k
    · have hz : xs.countP (fun y => f y == k) = 0 := by
        apply countP_key_eq_zero
        intro a ha hak
        exact hnd.1 (hx ▸ hak ▸ List.mem_map_of_mem f ha)
      simp [hz, hx]
    · have hbx : (f x == k) = false := by simpa using hx
      simpa [hbx] using ih hnd.2

theorem deficit_run_eq (db : DB) (now : Nat) (cfg : EnergyManagementConfig)
    (r : ConsumptionReading)
    (hcfg : EnergyManagementConfig.get_active_config db.configs = some cfg)
    (hen : cfg.auto_control_enabled = true)
    (hr : latestReading db.readings = some r)
    (hdef : production_percentage r.production_kwh (total_consumption db)
      < cfg.deficit_threshold_percentage) :
    check_and_control_devices db now =
      { report := errorReport, db := db, transport_calls := [] } := by
  unfold check_and_control_devices
  rw [hcfg, hr]
  simp [hen, decide_eq_true hdef]

theorem no_deficit_run_eq (db : DB) (now : Nat) (cfg : EnergyManagementConfig)
    (r : ConsumptionReading)
    (hcfg : EnergyManagementConfig.get_active_config db.configs = some cfg)
    (hen : cfg.auto_control_enabled = true)
    (hr : latestReading db.readings = some r)
    (hge : cfg.deficit_threshold_percentage ≤
      production_percentage r.production_kwh (total_consumption db)) :
    check_and_control_devices db now =
      { report := { status := "success",
                    message := "Device control check completed",
                    production_percentage :=
                      some (production_percentage r.production_kwh (total_consumption db)),
                    deficit_threshold := some cfg.deficit_threshold_percentage,
                    is_deficit := some false,
                    devices_controlled := 0,
                    alerts_created := 0,
                    timestamp := some now },
        db := db, transport_calls := [] } := by
  unfold check_and_control_devices
  rw [hcfg, hr]
  simp [hen, decide_eq_false (not_lt.mpr hge)]

/-- C6: when there is no active configuration, or the active configuration
has auto_control_enabled = false, or no consumption reading exists, the run
returns a report with status skipped, performs zero alert creations and zero
device mutations, and makes no transport call, regardless of all other
inputs. -/
theorem skipped_run_no_effects (db : DB) (now : Nat)
    (h : EnergyManagementConfig.get_active_config db.configs = none
       ∨ (∃ cfg, EnergyManagementConfig.get_active_config db.configs = some cfg
            ∧ cfg.auto_control_enabled = false)
       ∨ latestReading db.readings = none) :
    (check_and_control_devices db now).report.status = "skipped"
    ∧ (check_and_control_devices db now).db = db
    ∧ (check_and_control_devices db now).report.devices_controlled = 0
    ∧ (check_and_control_devices db now).report.alerts_created = 0
    ∧ (check_and_control_devices db now).transport_calls = [] := by
  rcases h with h | ⟨cfg, hcfg, hdis⟩ | h
  · unfold check_and_control_devices
    rw [h]
    simp [skippedReport]
  · unfold check_and_control_devices
    rw [hcfg]
    simp [hdis, skippedReport]
  · unfold check_and_control_devices
    cases hc : EnergyManagementConfig.get_active_config db.configs with
    | none => simp [skippedReport]
    | some cfg =>
      cases hen : cfg.auto_control_enabled with
      | false => simp [hen, skippedReport]
      | true =>
        rw [h]
        simp [hen, skippedReport]

/-- Witness for skipped_run_no_effects: the empty store has no active
configuration. -/
theorem skipped_run_no_effects_witness :
    (check_and_control_devices { configs := [], readings := [], devices := [], alerts := [] } 0).report.status
      = "skipped"
    ∧ (check_and_control_devices { configs := [], readings := [], devices := [], alerts := [] } 0).db
      = { configs := [], readings := [], devices := [], alerts := [] } := by
  have h := skipped_run_no_effects
    { configs := [], readings := [], devices := [], alerts := [] } 0 (Or.inl rfl)
  exact ⟨h.1, h.2.1⟩

/-- C2: a run that passes the skip checks and whose production percentage is
at least the deficit threshold (the deficit test is strict, so equality is
not a deficit) returns a success report with devices_controlled = 0 and
leaves the store untouched; spec scenario 7 (production 5.0 against
consumption 3.0 + 2.0 under threshold 100) is such a boundary run. -/
theorem no_deficit_no_effects (db : DB) (now : Nat)
    (cfg : EnergyManagementConfig) (r : ConsumptionReading)
    (hcfg : EnergyManagementConfig.get_active_config db.configs = some cfg)
    (hen : cfg.auto_control_enabled = true)
    (hr : latestReading db.readings = some r)
    (hge : cfg.deficit_threshold_percentage ≤
      production_percentage r.production_kwh (total_consumption db)) :
    (check_and_control_devices db now).report.status = "success"
    ∧ (check_and_control_devices db now).report.devices_controlled = 0
    ∧ (check_and_control_devices db now).report.alerts_created = 0
    ∧ (check_and_control_devices db now).db = db
    ∧ (check_and_control_devices scenario7DB 2).report.status = "success"
    ∧ (check_and_control_devices scenario7DB 2).report.production_percentage = some 100
    ∧ (check_and_control_devices scenario7DB 2).report.devices_controlled = 0
    ∧ (check_and_control_devices scenario7DB 2).db = scenario7DB := by
  have h7 : demoConfig.deficit_threshold_percentage ≤
      production_percentage (5 : ℚ) (total_consumption scenario7DB) := by
    norm_num [production_percentage, total_consumption, scenario7DB, demoConfig,
      baixaDemoDevice, mediaDemoDevice]
  have e7 := no_deficit_run_eq scenario7DB 2 demoConfig
    { timestamp := 1, production_kwh := 5 } rfl rfl rfl h7
  rw [no_deficit_run_eq db now cfg r hcfg hen hr hge, e7]
  refine ⟨rfl, rfl, rfl, rfl, rfl, ?_, rfl, rfl⟩
  norm_num [production_percentage, total_consumption, scenario7DB,
    baixaDemoDevice, mediaDemoDevice]

/-- Witness for no_deficit_no_effects at spec scenario 7. -/
theorem no_deficit_no_effects_witness :
    (check_and_control_devices scenario7DB 2).report.status = "success"
    ∧ (check_and_control_devices scenario7DB 2).db = scenario7DB := by
  have h := no_deficit_no_effects scenario7DB 2 demoConfig
    { timestamp := 1, production_kwh := 5 } rfl rfl rfl
    (by norm_num [production_percentage, total_consumption, scenario7DB, demoConfig,
      baixaDemoDevice, mediaDemoDevice])
  exact ⟨h.1, h.2.2.2.1⟩

/-- C3: every run that reaches the balance computation computes the
percentage as production divided by the active-device consumption times 100
when that consumption is positive, and exactly 100 when it is zero, whatever
the production value; the run branches on exactly that value: when it is at
least the threshold the success report carries it, and when it is below the
threshold the run aborts at the device=None alert insert and the error
report carries no percentage. -/
theorem production_percentage_spec (db : DB) (now : Nat)
    (cfg : EnergyManagementConfig) (r : ConsumptionReading)
    (hcfg : EnergyManagementConfig.get_active_config db.configs = some cfg)
    (hen : cfg.auto_control_enabled = true)
    (hr : latestReading db.readings = some r) :
    (0 < total_consumption db →
        production_percentage r.production_kwh (total_consumption db) =
          r.production_kwh / total_consumption db * 100)
    ∧ (total_consumption db = 0 →
        production_percentage r.production_kwh (total_consumption db) = 100)
    ∧ (cfg.deficit_threshold_percentage ≤
          production_percentage r.production_kwh (total_consumption db) →
        (check_and_control_devices db now).report.production_percentage =
          some (production_percentage r.production_kwh (total_consumption db)))
    ∧ (production_percentage r.production_kwh (total_consumption db) <
          cfg.deficit_threshold_percentage →
        (check_and_control_devices db now).report.status = "error"
        ∧ (check_and_control_devices db now).report.production_percentage = none) := by
  refine ⟨?_, ?_, ?_, ?_⟩
  · intro hpos
    unfold production_percentage
    rw [if_pos hpos]
  · intro hz
    unfold production_percentage
    rw [hz]
    norm_num
  · intro hge
    rw [no_deficit_run_eq db now cfg r hcfg hen hr hge]
  · intro hdef
    rw [deficit_run_eq db now cfg r hcfg hen hr hdef]
    exact ⟨rfl, rfl⟩

/-- Witness for production_percentage_spec at spec scenario 7. -/
theorem production_percentage_spec_witness :
    (check_and_control_devices scenario7DB 2).report.production_percentage =
      some (production_percentage (5 : ℚ) (total_consumption scenario7DB)) := by
  have h := production_percentage_spec scenario7DB 2 demoConfig
    { timestamp := 1, production_kwh := 5 } rfl rfl rfl
  exact h.2.2.1 (by norm_num [production_percentage, total_consumption, scenario7DB,
    demoConfig, baixaDemoDevice, mediaDemoDevice])

/-- C9: under distinct primary keys, saving an EnergyManagementConfig record
preserves the at-most-one-active invariant, and saving an active record first
deactivates every other row, so afterwards every active row carries the saved
record's key. -/
theorem config_save_at_most_one_active (configs : List EnergyManagementConfig)
    (c : EnergyManagementConfig)
    (hnd : (configs.map EnergyManagementConfig.id).Nodup)
    (hpre : configs.countP (fun x => x.is_active) ≤ 1) :
    (EnergyManagementConfig.save configs c).countP (fun x => x.is_active) ≤ 1
    ∧ (c.is_active = true →
        ∀ x ∈ EnergyManagementConfig.save configs c,
          x.is_active = true → x.id = c.id) := by
  unfold EnergyManagementConfig.save
  cases hca : c.is_active with
  | false =>
    simp only [hca, Bool.false_eq_true, if_false]
    constructor
    · by_cases hany : (configs.any (fun x => x.id == c.id)) = true
      · rw [if_pos hany, List.countP_map]
        refine le_trans (List.countP_mono_left ?_) hpre
        intro x hx hup
        simp only [Function.comp] at hup
        by_cases hid : (x.id == c.id) = true
        · rw [if_pos hid, hca] at hup
          cases hup
        · rwa [if_neg hid] at hup
      · rw [if_neg hany, List.countP_append]
        have hc0 : ([c].countP (fun x => x.is_active)) = 0 := by simp [hca]
        rw [hc0]
        simpa using hpre
    · intro hct
      exact hct.elim
  | true =>
    simp only [hca, if_true]
    have hinactive : ∀ x ∈ configs.map
        (fun x => if x.is_active then { x with is_active := false } else x),
        x.is_active = false := by
      intro x hx
      rcases List.mem_map.mp hx with ⟨y, _, rfl⟩
      cases hyv : y.is_active <;> simp [hyv]
    have hids : (configs.map
        (fun x => if x.is_active then { x with is_active := false } else x)).map
          EnergyManagementConfig.id = configs.map EnergyManagementConfig.id := by
      rw [List.map_map]
      apply List.map_congr_left
      intro x _
      cases hxv : x.is_active <;> simp [hxv]
    by_cases hany : ((configs.map
        (fun x => if x.is_active then { x with is_active := false } else x)).any
          (fun x => x.id == c.id)) = true
    · rw [if_pos hany]
      constructor
      · rw [List.countP_map]
        have hcong : (configs.map
            (fun x => if x.is_active then { x with is_active := false } else x)).countP
              ((fun x => x.is_active) ∘ fun x => if x.id == c.id then c else x)
            = (configs.map
            (fun x => if x.is_active then { x with is_active := false } else x)).countP
              (fun x => x.id == c.id) :=
          List.countP_congr (fun x hx => by
            by_cases hid : (x.id == c.id) = true
            · simp [Function.comp, hid, hca]
            · simp [Function.comp, hid, hinactive x hx])
        rw [hcong]
        apply countP_key_le_one EnergyManagementConfig.id c.id
        rw [hids]
        exact hnd
      · intro _ x hx hxact
        rcases List.mem_map.mp hx with ⟨y, hy, rfl⟩
        by_cases hid : (y.id == c.id) = true
        · rw [if_pos hid]
        · rw [if_neg hid] at hxact ⊢
          rw [hinactive y hy] at hxact
          cases hxact
    · rw [if_neg hany]
      constructor
      · rw [List.countP_append]
        have hz : (configs.map
            (fun x => if x.is_active then { x with is_active := false } else x)).countP
              (fun x => x.is_active) = 0 := by
          apply List.countP_eq_zero.mpr
          intro a ha
          simp [hinactive a ha]
        rw [hz]
        simp [hca]
      · intro _ x hx hxact
        rcases List.mem_append.mp hx with hx | hx
        · rw [hinactive x hx] at hxact
          cases hxact
        · rcases List.mem_singleton.mp hx with rfl
          rfl

/-- Witness for config_save_at_most_one_active: saving a new active third
configuration next to an active and an inactive one. -/
theorem config_save_at_most_one_active_witness :
    ([{ id := 1, name := "a", deficit_threshold_percentage := 100,
        auto_control_enabled := true, is_active := true },
      { id := 2, name := "b", deficit_threshold_percentage := 90,
        auto_control_enabled := true, is_active := false }].map
          EnergyManagementConfig.id).Nodup
    ∧ (EnergyManagementConfig.save
        [{ id := 1, name := "a", deficit_threshold_percentage := 100,
           auto_control_enabled := true, is_active := true },
         { id := 2, name := "b", deficit_threshold_percentage := 90,
           auto_control_enabled := true, is_active := false }]
        { id := 3, name := "c", deficit_threshold_percentage := 80,
          auto_control_enabled := true, is_active := true }).countP
            (fun x => x.is_active) ≤ 1 := by
  refine ⟨by simp, ?_⟩
  exact (config_save_at_most_one_active _ _ (by simp) (by simp)).1

/-- C4: every failure the controller can actually hit aborts the run with an
error-status report and with nothing committed.  The only write a pass
attempts is the deficit branch's device=None alert insert, which is itself
the failing operation (NOT NULL foreign key), so the transaction.atomic
block is never entered and the all-or-none property holds on the none side:
counters are zero, the store is unchanged and no transport call was made. -/
theorem deficit_failure_aborts_uncommitted (db : DB) (now : Nat)
    (cfg : EnergyManagementConfig) (r : ConsumptionReading)
    (hcfg : EnergyManagementConfig.get_active_config db.configs = some cfg)
    (hen : cfg.auto_control_enabled = true)
    (hr : latestReading db.readings = some r)
    (hdef : production_percentage r.production_kwh (total_consumption db)
      < cfg.deficit_threshold_percentage) :
    (check_and_control_devices db now).report.status = "error"
    ∧ (check_and_control_devices db now).report.devices_controlled = 0
    ∧ (check_and_control_devices db now).report.alerts_created = 0
    ∧ (check_and_control_devices db now).db = db
    ∧ (check_and_control_devices db now).transport_calls = [] := by
  rw [deficit_run_eq db now cfg r hcfg hen hr hdef]
  exact ⟨rfl, rfl, rfl, rfl, rfl⟩

/-- Witness for deficit_failure_aborts_uncommitted at spec scenario 8. -/
theorem deficit_failure_aborts_uncommitted_witness :
    (check_and_control_devices scenario8DB 9).report.status = "error"
    ∧ (check_and_control_devices scenario8DB 9).db = scenario8DB := by
  have h := deficit_failure_aborts_uncommitted scenario8DB 9 demoConfig
    { timestamp := 1, production_kwh := 4 } rfl rfl rfl
    (by norm_num [production_percentage, total_consumption, scenario8DB, demoConfig,
      baixaDemoDevice, mediaDemoDevice])
  exact ⟨h.1, h.2.2.2.1⟩

/-- C1: in the program no deficit run reaches the BAIXA control loop: at
spec scenario 8 the run aborts at the device=None alert insert with an error
report, the whole store — in particular the controllable Tuya BAIXA device,
which starts active and not auto-controlled — is unchanged, no transport
call is made and no device_auto_controlled alert referencing the device
exists. -/
theorem deficit_run_never_controls_baixa :
    (check_and_control_devices scenario8DB 9).report.status = "error"
    ∧ (check_and_control_devices scenario8DB 9).db = scenario8DB
    ∧ (check_and_control_devices scenario8DB 9).transport_calls = []
    ∧ baixaDemoDevice.is_active = true
    ∧ baixaDemoDevice.auto_controlled = false
    ∧ (check_and_control_devices scenario8DB 9).db.alerts.countP (autoAlertFor 1) = 0 := by
  have h := deficit_run_eq scenario8DB 9 demoConfig
    { timestamp := 1, production_kwh := 4 } rfl rfl rfl
    (by norm_num [production_percentage, total_consumption, scenario8DB, demoConfig,
      baixaDemoDevice, mediaDemoDevice])
  rw [h]
  exact ⟨rfl, rfl, rfl, rfl, rfl, rfl⟩

/-- C7: in the program no deficit run reaches the MEDIA alert loop: at spec
scenario 8 the run aborts at the device=None alert insert with an error
report, the active MEDIA device is unchanged, and no
medium_priority_action_needed alert referencing it exists. -/
theorem deficit_run_never_alerts_media :
    (check_and_control_devices scenario8DB 9).report.status = "error"
    ∧ (check_and_control_devices scenario8DB 9).db = scenario8DB
    ∧ mediaDemoDevice.is_active = true
    ∧ (check_and_control_devices scenario8DB 9).db.alerts.countP (mediumActionAlertFor 2)
        = 0 := by
  have h := deficit_run_eq scenario8DB 9 demoConfig
    { timestamp := 1, production_kwh := 4 } rfl rfl rfl
    (by norm_num [production_percentage, total_consumption, scenario8DB, demoConfig,
      baixaDemoDevice, mediaDemoDevice])
  rw [h]
  exact ⟨rfl, rfl, rfl, rfl⟩

/-- C8: the system-wide deficit_detected alert is never created: its insert
with device=None is the very statement that violates the NOT NULL foreign
key, so spec scenario 8 yields an error report with zero alerts created and
zero devices controlled instead of three alerts and one device. -/
theorem deficit_run_creates_no_alerts :
    (check_and_control_devices scenario8DB 9).report.status = "error"
    ∧ (check_and_control_devices scenario8DB 9).report.alerts_created = 0
    ∧ (check_and_control_devices scenario8DB 9).report.devices_controlled = 0
    ∧ (check_and_control_devices scenario8DB 9).db.alerts = ([] : List ConsumptionAlert)
    ∧ (check_and_control_devices scenario8DB 9).db.alerts.countP deficitAlertP = 0 := by
  have h := deficit_run_eq scenario8DB 9 demoConfig
    { timestamp := 1, production_kwh := 4 } rfl rfl rfl
    (by norm_num [production_percentage, total_consumption, scenario8DB, demoConfig,
      baixaDemoDevice, mediaDemoDevice])
  rw [h]
  exact ⟨rfl, rfl, rfl, rfl, rfl⟩

/-- C10: the devices_controlled counter is never incremented: a deficit run
with a non-controllable active BAIXA device aborts at the device=None alert
insert and reports devices_controlled = 0 with status error and an unchanged
store. -/
theorem deficit_run_reports_zero_controlled :
    (check_and_control_devices scenarioManualDB 3).report.status = "error"
    ∧ (check_and_control_devices scenarioManualDB 3).report.devices_controlled = 0
    ∧ (check_and_control_devices scenarioManualDB 3).db = scenarioManualDB
    ∧ manualBaixaDevice.is_controllable = false
    ∧ manualBaixaDevice.is_active = true := by
  have h := deficit_run_eq scenarioManualDB 3 demoConfig
    { timestamp := 1, production_kwh := 1 } rfl rfl rfl
    (by norm_num [production_percentage, total_consumption, scenarioManualDB, demoConfig,
      manualBaixaDevice])
  rw [h]
  exact ⟨rfl, rfl, rfl, rfl, rfl⟩

/-- C5: the soft-failure path is unreachable: a deficit run whose only BAIXA
device is controllable and would fail its transport call (non-Tuya) aborts
at the device=None alert insert before any transport call, so no call is
made or logged, no device is processed and the store is unchanged. -/
theorem deficit_run_makes_no_transport_call :
    control_tuya_device failBaixaDevice false = false
    ∧ (check_and_control_devices scenarioFailDB 7).report.status = "error"
    ∧ (check_and_control_devices scenarioFailDB 7).transport_calls = []
    ∧ (check_and_control_devices scenarioFailDB 7).db = scenarioFailDB := by
  have h := deficit_run_eq scenarioFailDB 7 demoConfig
    { timestamp := 1, production_kwh := 1 } rfl rfl rfl
    (by norm_num [production_percentage, total_consumption, scenarioFailDB, demoConfig,
      failBaixaDevice])
  rw [h]
  exact ⟨rfl, rfl, rfl, rfl⟩

end GoodWe
